import Mathlib

/-!
Verification of the MedswiftV2 dispatch and realtime coordination engine.

The repository is a TypeScript emergency-dispatch backend.  This file gives
a shallow embedding of the core operations the claims are about:

* the trip lifecycle state machine (`validateStatusTransition`,
  `updateTripStatus`, `assignAmbulanceToTrip`, `createTripRequest` from
  `src/modules/trip/trip.dto/trip.dto.ts`, and the HTTP handlers
  `createTripController`, `arrivedAtPickup`, `enRouteToHospital`,
  `arrivedAtHospital`, `completeTrip`, `cancelTripController`,
  `updateTripLocation` from `src/modules/trip/controllers/trip.controller.ts`);
* the geospatial resource matcher (`findNearbyAmbulances` from
  `src/modules/ambulance/services/ambulance.service.ts` and
  `findNearbyHospitals` from
  `src/modules/hospital/services/hospital.service.ts`);
* the Redis synchronization and socket handlers (`syncAmbulancetoRedis`,
  the `location_update` handler from
  `src/shared/infra/sockets/events/location.events.ts`, and the
  `leave_trip` handler from the trip socket events file).

Modelling conventions:

* MongoDB ObjectIds are modelled as `Nat`; timestamps (`new Date()`) as a
  `Nat` parameter `now` supplied by the caller (server-assigned clock).
* The durable MongoDB store is a `MedState` record of lists; `findById`
  is `List.find?` on the id, `save` / `findByIdAndUpdate` replace the
  record with the matching id.
* The Redis GEO index `ambulance_locations` is modelled twice, matching
  its two uses: for membership mutation (GEOADD / ZREM) it is the list
  `MedState.ambulanceGeo` of member ids; for `GEOSEARCH` queries the index
  is modelled, relative to the fixed query point of the request, as a
  `GeoView`: the list of members paired with their distance in meters, in
  the ascending-distance order Redis returns with SORT ASC.  `COUNT n`
  is `List.take n`.
* Thrown `ApiError`s become `Except ApiError` results; socket emissions
  and console logging are external effects and are either dropped or (for
  the claims about events) returned explicitly as data.
* JavaScript falsiness of `0` and of `undefined` in payload validation is
  mirrored where the source checks it.
-/

namespace Medswift

/-- Trip lifecycle status, from the trip model / `updateTripStatusSchema`. -/
inductive TripStatus where
  | SEARCHING
  | ACCEPTED
  | ARRIVED_PICKUP
  | EN_ROUTE_HOSPITAL
  | ARRIVED_HOSPITAL
  | COMPLETED
  | CANCELLED
  deriving DecidableEq

/-- The string the source uses for each status (used in error messages). -/
def statusString : TripStatus → String
  | .SEARCHING => "SEARCHING"
  | .ACCEPTED => "ACCEPTED"
  | .ARRIVED_PICKUP => "ARRIVED_PICKUP"
  | .EN_ROUTE_HOSPITAL => "EN_ROUTE_HOSPITAL"
  | .ARRIVED_HOSPITAL => "ARRIVED_HOSPITAL"
  | .COMPLETED => "COMPLETED"
  | .CANCELLED => "CANCELLED"

/-- Ambulance durable status: "ready" | "on-trip" | "offline". -/
inductive AmbulanceStatus where
  | ready
  | onTrip
  | offline
  deriving DecidableEq

/-- One entry of `trip.timeline` (status, server timestamp, optional
location, optional actor string), from the trip model. -/
structure TimelineEntry where
  status : TripStatus
  timestamp : Nat
  location : Option (Int × Int) := none
  updatedBy : Option String := none
  deriving DecidableEq

/-- The durable Trip record.  The patient snapshot fields (name, phone,
blood group, medical history) are copied opaque strings that none of the
claims inspect, so they are omitted from the embedding. -/
structure Trip where
  id : Nat
  userId : Nat
  ambulanceId : Option Nat := none
  destinationHospitalId : Option Nat := none
  status : TripStatus
  pickup : Int × Int
  dropoff : Option (Int × Int) := none
  timeline : List TimelineEntry
  acceptedAt : Option Nat := none
  arrivedAtPickup : Option Nat := none
  arrivedAtHospital : Option Nat := none
  completedAt : Option Nat := none
  deriving DecidableEq

/-- The durable Ambulance record (the fields the engine reads). -/
structure Ambulance where
  id : Nat
  status : AmbulanceStatus
  location : Option (Int × Int) := none
  deriving DecidableEq

/-- Hospital blood stock counters, one per blood type, as in
`inventory.bloodStock` of the hospital model. -/
structure BloodStock where
  A_positive : Nat := 0
  A_negative : Nat := 0
  B_positive : Nat := 0
  B_negative : Nat := 0
  O_positive : Nat := 0
  O_negative : Nat := 0
  AB_positive : Nat := 0
  AB_negative : Nat := 0
  deriving DecidableEq

/-- The database field name a requested blood type maps to
(the source maps "O-" to "O_negative" and so on). -/
inductive BloodKey where
  | A_positive
  | A_negative
  | B_positive
  | B_negative
  | O_positive
  | O_negative
  | AB_positive
  | AB_negative
  deriving DecidableEq

/-- Read the stock counter for a blood key. -/
def stockOf (b : BloodStock) : BloodKey → Nat
  | .A_positive => b.A_positive
  | .A_negative => b.A_negative
  | .B_positive => b.B_positive
  | .B_negative => b.B_negative
  | .O_positive => b.O_positive
  | .O_negative => b.O_negative
  | .AB_positive => b.AB_positive
  | .AB_negative => b.AB_negative

/-- The durable Hospital record (the fields the matcher reads). -/
structure Hospital where
  id : Nat
  location : Int × Int
  bedsAvailable : Nat := 0
  bloodStock : BloodStock := {}
  deriving DecidableEq

/-- Participant role attached to an authenticated socket. -/
inductive Role where
  | user
  | ambulance
  | admin
  | hospital
  deriving DecidableEq

/-- One entry of the TTL-bounded location cache
(Redis key `location:<role>:<tripId>`).  The TTL itself is wall-clock
behavior outside the embedding; the entry stores its write timestamp. -/
structure CacheEntry where
  role : Role
  tripId : Nat
  longitude : Int
  latitude : Int
  timestamp : Nat
  deriving DecidableEq

/-- The combined durable store (MongoDB collections) plus the ephemeral
Redis projections the claims are about. -/
structure MedState where
  trips : List Trip := []
  users : List Nat := []
  ambulances : List Ambulance := []
  hospitals : List Hospital := []
  ambulanceGeo : List Nat := []
  locationCache : List CacheEntry := []
  deriving DecidableEq

/-- Thrown `ApiError(statusCode, message)`. -/
structure ApiError where
  statusCode : Nat
  message : String
  deriving DecidableEq

/-- `Trip.findById`. -/
def findTrip (s : MedState) (tripId : Nat) : Option Trip :=
  s.trips.find? (fun t => t.id == tripId)

/-- `trip.save()`: write back the document with the matching id. -/
def updateTrip (s : MedState) (t : Trip) : MedState :=
  { s with trips := s.trips.map (fun u => if u.id = t.id then t else u) }

/-- `Ambulance.findById`. -/
def findAmbulance (s : MedState) (ambulanceId : Nat) : Option Ambulance :=
  s.ambulances.find? (fun a => a.id == ambulanceId)

/-- `Ambulance.findByIdAndUpdate(id, { status })`. -/
def setAmbulanceStatus (s : MedState) (ambulanceId : Nat)
    (st : AmbulanceStatus) : MedState :=
  { s with
    ambulances := s.ambulances.map
      (fun a => if a.id = ambulanceId then { a with status := st } else a) }

/-- Redis GEOADD on `ambulance_locations`: membership-level model (the
stored coordinates are not tracked; GEOADD of an existing member only
moves it). -/
def geoAdd (s : MedState) (ambulanceId : Nat) : MedState :=
  if ambulanceId ∈ s.ambulanceGeo then s
  else { s with ambulanceGeo := s.ambulanceGeo ++ [ambulanceId] }

/-- Redis ZREM on `ambulance_locations`. -/
def zRem (s : MedState) (ambulanceId : Nat) : MedState :=
  { s with ambulanceGeo := s.ambulanceGeo.filter (fun m => m != ambulanceId) }

/-- Actor label `user:<id>` used in timeline entries. -/
def userActor (uid : Nat) : String := "user:" ++ toString uid

/-- Actor label `ambulance:<id>` used in timeline entries. -/
def ambulanceActor (aid : Nat) : String := "ambulance:" ++ toString aid

/-- Actor label `hospital:<id>` used in timeline entries. -/
def hospitalActor (hid : Nat) : String := "hospital:" ++ toString hid

/-- Actor label `admin:<id>` used in timeline entries. -/
def adminActor (aid : Nat) : String := "admin:" ++ toString aid

/-! ## The trip state machine (trip.dto.ts) -/

/-- The transition table of `validateStatusTransition`
(trip.dto.ts lines 774-794). -/
def validTransitions : TripStatus → List TripStatus
  | .SEARCHING => [.ACCEPTED, .CANCELLED]
  | .ACCEPTED => [.ARRIVED_PICKUP, .CANCELLED]
  | .ARRIVED_PICKUP => [.EN_ROUTE_HOSPITAL, .CANCELLED]
  | .EN_ROUTE_HOSPITAL => [.ARRIVED_HOSPITAL, .CANCELLED]
  | .ARRIVED_HOSPITAL => [.COMPLETED, .CANCELLED]
  | .COMPLETED => []
  | .CANCELLED => []

/-- The message of the `InvalidTransition` ApiError(400). -/
def invalidTransitionMessage (currentStatus newStatus : TripStatus) : String :=
  "Invalid status transition from " ++ statusString currentStatus ++
    " to " ++ statusString newStatus

/-- `validateStatusTransition` (trip.dto.ts lines 774-794): throws
ApiError(400, invalid transition) when the pair is not in the table. -/
def validateStatusTransition (currentStatus newStatus : TripStatus) :
    Except ApiError Unit :=
  if newStatus ∈ validTransitions currentStatus then .ok ()
  else .error ⟨400, invalidTransitionMessage currentStatus newStatus⟩

/-- Input of `updateTripStatus` (`UpdateTripStatusInput`). -/
structure UpdateTripStatusInput where
  tripId : Nat
  status : TripStatus
  ambulanceId : Option Nat := none
  location : Option (Int × Int) := none
  updatedBy : Option String := none
  deriving DecidableEq

/-- `updateTripStatus` (trip.dto.ts lines 799-872): fetch the trip,
validate the transition, require an ambulance id for ACCEPTED, stamp the
milestone field, append one timeline entry, and save.  The socket
emission after the save is an external effect and is dropped. -/
def updateTripStatus (s : MedState) (now : Nat)
    (input : UpdateTripStatusInput) : Except ApiError (MedState × Trip) :=
  match findTrip s input.tripId with
  | none => .error ⟨404, "Trip not found"⟩
  | some trip =>
    match validateStatusTransition trip.status input.status with
    | .error e => .error e
    | .ok _ =>
      if input.status = .ACCEPTED ∧ input.ambulanceId = none then
        .error ⟨400, "Ambulance ID required for ACCEPTED status"⟩
      else
        let entry : TimelineEntry :=
          { status := input.status, timestamp := now,
            location := input.location, updatedBy := input.updatedBy }
        let trip' : Trip :=
          { trip with
            status := input.status
            timeline := trip.timeline ++ [entry]
            ambulanceId :=
              if input.status = .ACCEPTED then input.ambulanceId
              else trip.ambulanceId
            acceptedAt :=
              if input.status = .ACCEPTED then some now else trip.acceptedAt
            arrivedAtPickup :=
              if input.status = .ARRIVED_PICKUP then some now
              else trip.arrivedAtPickup
            arrivedAtHospital :=
              if input.status = .ARRIVED_HOSPITAL then some now
              else trip.arrivedAtHospital
            completedAt :=
              if input.status = .COMPLETED then some now
              else trip.completedAt }
        .ok (updateTrip s trip', trip')

/-- The durable state after an operation: the new state on success, the
old state when the operation threw (a thrown ApiError aborts the request
before any write of this operation is persisted). -/
def runState (s : MedState) (r : Except ApiError (MedState × Trip)) :
    MedState :=
  match r with
  | .ok (s', _) => s'
  | .error _ => s

/-! ## Claim C1 -/

/-- Claim C1: for every trip and every requested status change whose
(current, next) pair is not in the transition table, `updateTripStatus`
fails with the InvalidTransition ApiError(400) and the durable state —
hence the trip's status, timeline, ambulance assignment and milestone
timestamps — is unchanged. -/
theorem updateTripStatus_invalid_transition
    (s : MedState) (now : Nat) (input : UpdateTripStatusInput) (trip : Trip)
    (hfind : findTrip s input.tripId = some trip)
    (hinv : input.status ∉ validTransitions trip.status) :
    updateTripStatus s now input =
      .error ⟨400, invalidTransitionMessage trip.status input.status⟩ ∧
    runState s (updateTripStatus s now input) = s := by
  have hval : validateStatusTransition trip.status input.status =
      .error ⟨400, invalidTransitionMessage trip.status input.status⟩ := by
    simp [validateStatusTransition, hinv]
  have hres : updateTripStatus s now input =
      .error ⟨400, invalidTransitionMessage trip.status input.status⟩ := by
    simp [updateTripStatus, hfind, hval]
  exact ⟨hres, by simp [runState, hres]⟩

/-- A concrete trip stuck in COMPLETED, used as witness input. -/
def tripCompletedW : Trip :=
  { id := 1, userId := 7, status := .COMPLETED, pickup := (2, 3),
    timeline := [{ status := .SEARCHING, timestamp := 0 },
                 { status := .COMPLETED, timestamp := 9 }] }

/-- A concrete durable state holding `tripCompletedW`. -/
def stateC1W : MedState := { trips := [tripCompletedW], users := [7] }

/-- Witness for C1: asking to move the COMPLETED trip to ACCEPTED is
refused with the InvalidTransition error and the state is unchanged. -/
theorem updateTripStatus_invalid_transition_witness :
    updateTripStatus stateC1W 5 { tripId := 1, status := .ACCEPTED } =
      .error ⟨400, invalidTransitionMessage .COMPLETED .ACCEPTED⟩ ∧
    runState stateC1W
      (updateTripStatus stateC1W 5 { tripId := 1, status := .ACCEPTED }) =
      stateC1W := by
  have h := updateTripStatus_invalid_transition stateC1W 5
    { tripId := 1, status := .ACCEPTED } tripCompletedW (by decide) (by decide)
  exact h

/-! ## The geospatial resource matcher
(ambulance.service.ts, hospital.service.ts) -/

/-- A Redis GEO index viewed from a fixed query point: members paired
with their distance from that point in meters, in the ascending-distance
order Redis returns with SORT ASC. -/
abbrev GeoView := List (Nat × Nat)

/-- The fixed failover radii, in kilometers: 5 → 10 → 17 → 30. -/
def searchRadii : List Nat := [5, 10, 17, 30]

/-- `redis.geoSearchWith(key, from, { radius, unit: km }, [WITHDIST],
{ SORT: ASC, COUNT: count })`: the nearest members within the radius,
at most `count` of them. -/
def geoSearchWith (view : GeoView) (radiusKm count : Nat) : GeoView :=
  (view.filter (fun e => e.2 ≤ radiusKm * 1000)).take count

/-- One element of the result of `findNearbyAmbulances` (the source's
`NearbyAmbulanceResult`, with the null `ambulanceData` entries already
filtered out, as the source does before returning). -/
structure NearbyAmbulanceResult where
  ambulanceId : Nat
  distance : Nat
  ambulanceData : Ambulance
  deriving DecidableEq

/-- The body of one radius pass of `findNearbyAmbulances`
(ambulance.service.ts lines 98-144): query Redis with COUNT = limit,
fetch the candidates that are still `status: "ready"` in MongoDB, and
keep the Redis entries whose durable record was found. -/
def ambulancePostFilter (view : GeoView) (ambs : List Ambulance)
    (limit radiusKm : Nat) : List NearbyAmbulanceResult :=
  let results := geoSearchWith view radiusKm limit
  let ids : List Nat := results.map (fun e => e.1)
  let ready := ambs.filter
    (fun a => decide (a.id ∈ ids) && decide (a.status = .ready))
  results.filterMap (fun e =>
    (ready.find? (fun a => a.id == e.1)).map
      (fun a => ⟨e.1, e.2, a⟩))

/-- The radius loop of `findNearbyAmbulances`: at each radius, if Redis
returned nothing, widen; if the post-filter result is nonempty, return
it; otherwise widen; after the last radius return the empty list. -/
def findNearbyAmbulancesAux (view : GeoView) (ambs : List Ambulance)
    (limit : Nat) : List Nat → List NearbyAmbulanceResult
  | [] => []
  | r :: rest =>
    let results := geoSearchWith view r limit
    if results.isEmpty then findNearbyAmbulancesAux view ambs limit rest
    else
      let nearby := ambulancePostFilter view ambs limit r
      if nearby.isEmpty then findNearbyAmbulancesAux view ambs limit rest
      else nearby

/-- `findNearbyAmbulances` (ambulance.service.ts lines 88-154):
radius failover over 5, 10, 17, 30 km. -/
def findNearbyAmbulances (view : GeoView) (ambs : List Ambulance)
    (limit : Nat := 10) : List NearbyAmbulanceResult :=
  findNearbyAmbulancesAux view ambs limit searchRadii

/-- Hospital search filters (blood type already mapped to its database
key, as the callers do with `bloodTypeMapping` / string replace). -/
structure HospitalFilters where
  bloodType : Option BloodKey := none
  requireBeds : Bool := false
  deriving DecidableEq

/-- The MongoDB query of `findNearbyHospitals` (hospital.service.ts
lines 114-134): id among the Redis candidates, blood stock of the
requested type strictly positive when a blood type is requested,
available beds strictly positive when beds are required. -/
def hospitalQueryMatch (ids : List Nat) (filters : HospitalFilters)
    (h : Hospital) : Bool :=
  decide (h.id ∈ ids) &&
  (match filters.bloodType with
   | some k => decide (0 < stockOf h.bloodStock k)
   | none => true) &&
  (if filters.requireBeds then decide (0 < h.bedsAvailable) else true)

/-- One element of the result of `findNearbyHospitals` (the source's
`NearbyHospitalResult` with null data filtered out). -/
structure NearbyHospitalResult where
  hospitalId : Nat
  distance : Nat
  hospitalData : Hospital
  deriving DecidableEq

/-- The body of one radius pass of `findNearbyHospitals`
(hospital.service.ts lines 94-158): query Redis with COUNT = limit * 2,
fetch the candidates matching the attribute query from MongoDB, keep the
Redis entries whose durable record was found, and slice to `limit`. -/
def hospitalPostFilter (view : GeoView) (hosps : List Hospital)
    (limit : Nat) (filters : HospitalFilters) (radiusKm : Nat) :
    List NearbyHospitalResult :=
  let results := geoSearchWith view radiusKm (limit * 2)
  let ids : List Nat := results.map (fun e => e.1)
  let matched := hosps.filter (hospitalQueryMatch ids filters)
  (results.filterMap (fun e =>
    (matched.find? (fun h => h.id == e.1)).map
      (fun h => ⟨e.1, e.2, h⟩))).take limit

/-- The radius loop of `findNearbyHospitals`. -/
def findNearbyHospitalsAux (view : GeoView) (hosps : List Hospital)
    (limit : Nat) (filters : HospitalFilters) :
    List Nat → List NearbyHospitalResult
  | [] => []
  | r :: rest =>
    let results := geoSearchWith view r (limit * 2)
    if results.isEmpty then
      findNearbyHospitalsAux view hosps limit filters rest
    else
      let nearby := hospitalPostFilter view hosps limit filters r
      if nearby.isEmpty then
        findNearbyHospitalsAux view hosps limit filters rest
      else nearby

/-- `findNearbyHospitals` (hospital.service.ts lines 80-169). -/
def findNearbyHospitals (view : GeoView) (hosps : List Hospital)
    (limit : Nat := 10) (filters : HospitalFilters := {}) :
    List NearbyHospitalResult :=
  findNearbyHospitalsAux view hosps limit filters searchRadii

/-- The first nonempty list of a list of lists, or the empty list. -/
def firstNonEmpty {α : Type} : List (List α) → List α
  | [] => []
  | l :: ls => if l.isEmpty then firstNonEmpty ls else l

/-- Modelled from the spec's words (for claim C3): try the radii in
order and return the post-filter matches of the first radius that
yields at least one, the empty list if all four are exhausted. -/
def ambulanceSearchSpec (view : GeoView) (ambs : List Ambulance)
    (limit : Nat) : List NearbyAmbulanceResult :=
  firstNonEmpty (searchRadii.map (ambulancePostFilter view ambs limit))

/-- Modelled from the spec's words (for claim C3): the same failover
description for hospitals. -/
def hospitalSearchSpec (view : GeoView) (hosps : List Hospital)
    (limit : Nat) (filters : HospitalFilters) : List NearbyHospitalResult :=
  firstNonEmpty
    (searchRadii.map (hospitalPostFilter view hosps limit filters))

/-- When the Redis query of a radius pass returns nothing, the
ambulance post-filter of that pass is empty too. -/
lemma ambulancePostFilter_empty_of_results (view : GeoView)
    (ambs : List Ambulance) (limit r : Nat)
    (h : geoSearchWith view r limit = []) :
    ambulancePostFilter view ambs limit r = [] := by
  simp [ambulancePostFilter, h]

/-- When the Redis query of a radius pass returns nothing, the hospital
post-filter of that pass is empty too. -/
lemma hospitalPostFilter_empty_of_results (view : GeoView)
    (hosps : List Hospital) (limit : Nat) (filters : HospitalFilters)
    (r : Nat) (h : geoSearchWith view r (limit * 2) = []) :
    hospitalPostFilter view hosps limit filters r = [] := by
  simp [hospitalPostFilter, h]

/-- The ambulance radius loop returns the post-filter matches of the
first radius with at least one, and the empty list otherwise. -/
lemma findNearbyAmbulancesAux_eq_firstNonEmpty (view : GeoView)
    (ambs : List Ambulance) (limit : Nat) (radii : List Nat) :
    findNearbyAmbulancesAux view ambs limit radii =
      firstNonEmpty (radii.map (ambulancePostFilter view ambs limit)) := by
  induction radii with
  | nil => rfl
  | cons r rest ih =>
    simp only [findNearbyAmbulancesAux, List.map_cons, firstNonEmpty]
    by_cases hres : (geoSearchWith view r limit).isEmpty
    · have hpf : ambulancePostFilter view ambs limit r = [] :=
        ambulancePostFilter_empty_of_results view ambs limit r
          (List.isEmpty_iff.mp hres)
      simp [hres, hpf, ih]
    · simp only [hres, if_false]
      by_cases hnear : (ambulancePostFilter view ambs limit r).isEmpty
      · simp [hnear, ih]
      · simp [hnear]

/-- The hospital radius loop returns the post-filter matches of the
first radius with at least one, and the empty list otherwise. -/
lemma findNearbyHospitalsAux_eq_firstNonEmpty (view : GeoView)
    (hosps : List Hospital) (limit : Nat) (filters : HospitalFilters)
    (radii : List Nat) :
    findNearbyHospitalsAux view hosps limit filters radii =
      firstNonEmpty
        (radii.map (hospitalPostFilter view hosps limit filters)) := by
  induction radii with
  | nil => rfl
  | cons r rest ih =>
    simp only [findNearbyHospitalsAux, List.map_cons, firstNonEmpty]
    by_cases hres : (geoSearchWith view r (limit * 2)).isEmpty
    · have hpf : hospitalPostFilter view hosps limit filters r = [] :=
        hospitalPostFilter_empty_of_results view hosps limit filters r
          (List.isEmpty_iff.mp hres)
      simp [hres, hpf, ih]
    · simp only [hres, if_false]
      by_cases hnear :
          (hospitalPostFilter view hosps limit filters r).isEmpty
      · simp [hnear, ih]
      · simp [hnear]

/-- Each Redis radius query returns at most COUNT entries. -/
lemma geoSearchWith_length_le (view : GeoView) (r count : Nat) :
    (geoSearchWith view r count).length ≤ count := by
  simp [geoSearchWith]

/-- One ambulance radius pass yields at most `limit` matches. -/
lemma ambulancePostFilter_length_le (view : GeoView)
    (ambs : List Ambulance) (limit r : Nat) :
    (ambulancePostFilter view ambs limit r).length ≤ limit := by
  calc (ambulancePostFilter view ambs limit r).length
      ≤ (geoSearchWith view r limit).length :=
        List.length_filterMap_le _ _
    _ ≤ limit := geoSearchWith_length_le view r limit

/-- One hospital radius pass yields at most `limit` matches. -/
lemma hospitalPostFilter_length_le (view : GeoView)
    (hosps : List Hospital) (limit : Nat) (filters : HospitalFilters)
    (r : Nat) :
    (hospitalPostFilter view hosps limit filters r).length ≤ limit := by
  simp [hospitalPostFilter]

/-- A first nonempty list inherits any pointwise length bound. -/
lemma firstNonEmpty_length_le {α : Type} (n : Nat) (ls : List (List α))
    (h : ∀ l ∈ ls, l.length ≤ n) : (firstNonEmpty ls).length ≤ n := by
  induction ls with
  | nil => simp [firstNonEmpty]
  | cons l rest ih =>
    simp only [firstNonEmpty]
    by_cases hl : l.isEmpty
    · simpa [hl] using ih (fun x hx => h x (List.mem_cons_of_mem _ hx))
    · simpa [hl] using h l (List.mem_cons_self _ _)

/-! ## Claim C3 -/

/-- Claim C3: both matchers try radii exactly in the order 5, 10, 17,
30 km; each radius queries the geo index for at most `limit`
(ambulances) respectively `limit * 2` (hospitals) candidates; the
result is the post-filter matches (cross-checked against the durable
store, truncated to `limit`) of the first radius yielding at least one
match; when all four radii yield zero post-filter matches the result is
the empty list (and, these being total functions, no error is raised). -/
theorem nearby_search_radius_failover :
    (∀ (view : GeoView) (ambs : List Ambulance) (limit : Nat),
      findNearbyAmbulances view ambs limit =
        ambulanceSearchSpec view ambs limit) ∧
    (∀ (view : GeoView) (hosps : List Hospital) (limit : Nat)
        (filters : HospitalFilters),
      findNearbyHospitals view hosps limit filters =
        hospitalSearchSpec view hosps limit filters) ∧
    (∀ (view : GeoView) (r count : Nat),
      (geoSearchWith view r count).length ≤ count) ∧
    (∀ (view : GeoView) (ambs : List Ambulance) (limit : Nat),
      (findNearbyAmbulances view ambs limit).length ≤ limit) ∧
    (∀ (view : GeoView) (hosps : List Hospital) (limit : Nat)
        (filters : HospitalFilters),
      (findNearbyHospitals view hosps limit filters).length ≤ limit) ∧
    (∀ (view : GeoView) (ambs : List Ambulance) (limit : Nat),
      (∀ r ∈ searchRadii, ambulancePostFilter view ambs limit r = []) →
      findNearbyAmbulances view ambs limit = []) ∧
    (∀ (view : GeoView) (hosps : List Hospital) (limit : Nat)
        (filters : HospitalFilters),
      (∀ r ∈ searchRadii,
        hospitalPostFilter view hosps limit filters r = []) →
      findNearbyHospitals view hosps limit filters = []) := by
  refine ⟨?_, ?_, ?_, ?_, ?_, ?_, ?_⟩
  · intro view ambs limit
    exact findNearbyAmbulancesAux_eq_firstNonEmpty view ambs limit searchRadii
  · intro view hosps limit filters
    exact findNearbyHospitalsAux_eq_firstNonEmpty view hosps limit filters
      searchRadii
  · intro view r count
    exact geoSearchWith_length_le view r count
  · intro view ambs limit
    show (findNearbyAmbulancesAux view ambs limit searchRadii).length ≤ limit
    rw [findNearbyAmbulancesAux_eq_firstNonEmpty]
    refine firstNonEmpty_length_le limit _ ?_
    intro l hl
    rcases List.mem_map.mp hl with ⟨r, _, rfl⟩
    exact ambulancePostFilter_length_le view ambs limit r
  · intro view hosps limit filters
    show (findNearbyHospitalsAux view hosps limit filters
      searchRadii).length ≤ limit
    rw [findNearbyHospitalsAux_eq_firstNonEmpty]
    refine firstNonEmpty_length_le limit _ ?_
    intro l hl
    rcases List.mem_map.mp hl with ⟨r, _, rfl⟩
    exact hospitalPostFilter_length_le view hosps limit filters r
  · intro view ambs limit h
    show findNearbyAmbulancesAux view ambs limit searchRadii = []
    rw [findNearbyAmbulancesAux_eq_firstNonEmpty]
    have : searchRadii.map (ambulancePostFilter view ambs limit) =
        [[], [], [], []] := by
      simp only [searchRadii, List.map_cons, List.map_nil]
      rw [h 5 (by decide), h 10 (by decide), h 17 (by decide),
        h 30 (by decide)]
    rw [this]; rfl
  · intro view hosps limit filters h
    show findNearbyHospitalsAux view hosps limit filters searchRadii = []
    rw [findNearbyHospitalsAux_eq_firstNonEmpty]
    have : searchRadii.map (hospitalPostFilter view hosps limit filters) =
        [[], [], [], []] := by
      simp only [searchRadii, List.map_cons, List.map_nil]
      rw [h 5 (by decide), h 10 (by decide), h 17 (by decide),
        h 30 (by decide)]
    rw [this]; rfl

/-- Witness for C3: on an index holding one ambulance 12 km out and a
ready durable record for it, the search finds it (at the 17 km pass —
the spec equality is exercised on this input), and the all-empty
conjunct is exercised on the empty index. -/
theorem nearby_search_radius_failover_witness :
    findNearbyAmbulances [(4, 12000)] [{ id := 4, status := .ready }] 10 =
      ambulanceSearchSpec [(4, 12000)] [{ id := 4, status := .ready }] 10 ∧
    findNearbyAmbulances [] [] 10 = [] := by
  refine ⟨nearby_search_radius_failover.1 [(4, 12000)]
    [{ id := 4, status := .ready }] 10, ?_⟩
  exact nearby_search_radius_failover.2.2.2.2.2.1 [] [] 10 (by decide)

/-- Any element of the hospital radius loop's result comes from the
post-filter of one of the radii. -/
lemma mem_findNearbyHospitalsAux (view : GeoView) (hosps : List Hospital)
    (limit : Nat) (filters : HospitalFilters) (radii : List Nat)
    (res : NearbyHospitalResult)
    (hmem : res ∈ findNearbyHospitalsAux view hosps limit filters radii) :
    ∃ r, res ∈ hospitalPostFilter view hosps limit filters r := by
  induction radii with
  | nil => simp [findNearbyHospitalsAux] at hmem
  | cons r rest ih =>
    simp only [findNearbyHospitalsAux] at hmem
    by_cases hres : (geoSearchWith view r (limit * 2)).isEmpty
    · simp only [hres, if_true] at hmem
      exact ih hmem
    · simp only [hres, if_false] at hmem
      by_cases hnear : (hospitalPostFilter view hosps limit filters r).isEmpty
      · simp only [hnear, if_true] at hmem
        exact ih hmem
      · simp only [hnear, if_false] at hmem
        exact ⟨r, hmem⟩

/-- Any element of a hospital post-filter pass satisfies the MongoDB
attribute query of that pass. -/
lemma hospitalPostFilter_query_match (view : GeoView)
    (hosps : List Hospital) (limit : Nat) (filters : HospitalFilters)
    (r : Nat) (res : NearbyHospitalResult)
    (hmem : res ∈ hospitalPostFilter view hosps limit filters r) :
    hospitalQueryMatch
      ((geoSearchWith view r (limit * 2)).map (fun e => e.1)) filters
      res.hospitalData = true := by
  simp only [hospitalPostFilter] at hmem
  have hmem' := List.mem_of_mem_take hmem
  rcases List.mem_filterMap.mp hmem' with ⟨e, _, hfe⟩
  rcases Option.map_eq_some'.mp hfe with ⟨h, hfind, hres⟩
  have hmemfilter := List.mem_of_find?_eq_some hfind
  have hq := (List.mem_filter.mp hmemfilter).2
  have : res.hospitalData = h := by rw [← hres]
  rw [this]
  exact hq

/-! ## Claim C8 -/

/-- Claim C8: when a blood type is requested, no hospital whose stock
counter for that blood type is zero ever appears in the result of
`findNearbyHospitals` — even at the nearest distance — and when
`requireBeds` is set, no hospital with zero available beds appears. -/
theorem hospital_attribute_filtering (view : GeoView)
    (hosps : List Hospital) (limit : Nat) (filters : HospitalFilters)
    (res : NearbyHospitalResult)
    (hmem : res ∈ findNearbyHospitals view hosps limit filters) :
    (∀ k, filters.bloodType = some k →
      stockOf res.hospitalData.bloodStock k ≠ 0) ∧
    (filters.requireBeds = true → res.hospitalData.bedsAvailable ≠ 0) := by
  rcases mem_findNearbyHospitalsAux view hosps limit filters searchRadii
    res hmem with ⟨r, hr⟩
  have hq := hospitalPostFilter_query_match view hosps limit filters r res hr
  simp only [hospitalQueryMatch, Bool.and_eq_true] at hq
  refine ⟨?_, ?_⟩
  · intro k hk
    have := hq.1.2
    rw [hk] at this
    have hpos : 0 < stockOf res.hospitalData.bloodStock k :=
      of_decide_eq_true this
    omega
  · intro hb
    have := hq.2
    rw [hb, if_pos rfl] at this
    have hpos : 0 < res.hospitalData.bedsAvailable :=
      of_decide_eq_true this
    omega

/-- A hospital with O-negative stock, used as witness input. -/
def hospitalC8W : Hospital :=
  { id := 11, location := (1, 1), bedsAvailable := 2,
    bloodStock := { O_negative := 3 } }

/-- Witness for C8: a search requesting O-negative and beds, whose
result contains `hospitalC8W`; the theorem's conclusions are
evaluated on it. -/
theorem hospital_attribute_filtering_witness :
    stockOf hospitalC8W.bloodStock .O_negative ≠ 0 ∧
    hospitalC8W.bedsAvailable ≠ 0 := by
  have h := hospital_attribute_filtering [(11, 2000)] [hospitalC8W] 10
    { bloodType := some .O_negative, requireBeds := true }
    ⟨11, 2000, hospitalC8W⟩ (by decide)
  exact ⟨h.1 .O_negative rfl, h.2 rfl⟩

/-! ## Trip service operations (trip.dto.ts) -/

/-- `assignAmbulanceToTrip` (trip.dto.ts lines 877-915): manual accept.
Checks the trip is SEARCHING and the ambulance is ready, sets the
ambulance to on-trip, then runs `updateTripStatus` to ACCEPTED. -/
def assignAmbulanceToTrip (s : MedState) (now : Nat)
    (tripId ambulanceId : Nat) : Except ApiError (MedState × Trip) :=
  match findTrip s tripId with
  | none => .error ⟨404, "Trip not found"⟩
  | some trip =>
    if trip.status ≠ .SEARCHING then
      .error ⟨400, "Trip is not in SEARCHING state. Cannot assign ambulance."⟩
    else
      match findAmbulance s ambulanceId with
      | none => .error ⟨404, "Ambulance not found"⟩
      | some ambulance =>
        if ambulance.status ≠ .ready then
          .error ⟨400, "Ambulance is not available"⟩
        else
          let s1 := setAmbulanceStatus s ambulanceId .onTrip
          updateTripStatus s1 now
            { tripId := tripId, status := .ACCEPTED,
              ambulanceId := some ambulanceId,
              location := ambulance.location,
              updatedBy := some (ambulanceActor ambulanceId) }

/-- The statuses counted as an active trip by `createTripRequest` and
`getActiveTrip`. -/
def activeStatuses : List TripStatus :=
  [.SEARCHING, .ACCEPTED, .ARRIVED_PICKUP, .EN_ROUTE_HOSPITAL,
   .ARRIVED_HOSPITAL]

/-- The 409 message of the active-trip conflict. -/
def activeTripMessage : String :=
  "You already have an active trip. Please complete or cancel it first."

/-- Input of `createTripRequest` (`CreateTripInput`; the blood type is
already mapped to its database key, as `bloodTypeMapping` does). -/
structure CreateTripInput where
  userId : Nat
  pickupCoordinates : Int × Int
  destinationHospitalId : Option Nat := none
  bloodType : Option BloodKey := none
  requireBeds : Bool := false
  deriving DecidableEq

/-- The hospital-resolution step of `createTripRequest` (trip.dto.ts
lines 556-593): an explicitly requested hospital must exist (404
otherwise); with no explicit hospital, auto-find the nearest suitable
one when a blood type or beds are requested. -/
def resolveTripHospital (hospView : GeoView) (s : MedState)
    (input : CreateTripInput) : Except ApiError (Option Hospital) :=
  match input.destinationHospitalId with
  | some hid =>
    match s.hospitals.find? (fun h => h.id == hid) with
    | none => .error ⟨404, "Specified hospital not found"⟩
    | some h => .ok (some h)
  | none =>
    if input.bloodType.isSome || input.requireBeds then
      .ok (((findNearbyHospitals hospView s.hospitals 1
        { bloodType := input.bloodType,
          requireBeds := input.requireBeds }).head?).map
            (fun nh => nh.hospitalData))
    else .ok none

/-- `createTripRequest` (trip.dto.ts lines 509-769): validate the user,
refuse when an active trip exists (409), search ambulances with
limit 5, resolve the destination hospital via `resolveTripHospital`,
then either auto-assign the nearest ambulance (set it on-trip, create
the trip directly in ACCEPTED with a two-entry timeline) or create the
trip in SEARCHING.  Socket broadcasts are external effects and are
dropped.  `newTripId` stands for the ObjectId MongoDB generates. -/
def createTripRequest (ambView hospView : GeoView) (s : MedState)
    (now : Nat) (newTripId : Nat) (input : CreateTripInput) :
    Except ApiError (MedState × Trip) :=
  if input.userId ∉ s.users then .error ⟨404, "User not found"⟩
  else if s.trips.any (fun t =>
      t.userId == input.userId && decide (t.status ∈ activeStatuses)) then
    .error ⟨409, activeTripMessage⟩
  else
    let nearbyAmbulances := findNearbyAmbulances ambView s.ambulances 5
    match resolveTripHospital hospView s input with
    | .error e => .error e
    | .ok hospital =>
      match nearbyAmbulances with
      | nearest :: _ =>
        let s1 := setAmbulanceStatus s nearest.ambulanceData.id .onTrip
        let trip : Trip :=
          { id := newTripId, userId := input.userId,
            ambulanceId := some nearest.ambulanceData.id,
            destinationHospitalId := hospital.map (fun h => h.id),
            status := .ACCEPTED,
            pickup := input.pickupCoordinates,
            dropoff := hospital.map (fun h => h.location),
            timeline :=
              [{ status := .SEARCHING, timestamp := now,
                 location := some input.pickupCoordinates,
                 updatedBy := some (userActor input.userId) },
               { status := .ACCEPTED, timestamp := now,
                 location := nearest.ambulanceData.location,
                 updatedBy := some ("system:auto-assign") }],
            acceptedAt := some now }
        .ok ({ s1 with trips := s1.trips ++ [trip] }, trip)
      | [] =>
        let trip : Trip :=
          { id := newTripId, userId := input.userId,
            status := .SEARCHING,
            pickup := input.pickupCoordinates,
            destinationHospitalId := hospital.map (fun h => h.id),
            dropoff := hospital.map (fun h => h.location),
            timeline :=
              [{ status := .SEARCHING, timestamp := now,
                 location := some input.pickupCoordinates,
                 updatedBy := some (userActor input.userId) }] }
        .ok ({ s with trips := s.trips ++ [trip] }, trip)

/-! ## Trip HTTP handlers (trip.controller.ts) -/

/-- `createTrip` (trip.controller.ts lines 18-253): create the trip in
SEARCHING (persisted at once), search ambulances with limit 10; when one
is found, set the trip to ACCEPTED and save — the handler never updates
the ambulance's own status — then search hospitals (preferred blood
type, else the patient's; beds always required) with limit 10 and, when
one is found, attach it and append another timeline entry.  Returns the
final durable state and trip. -/
def createTripController (ambView hospView : GeoView) (s : MedState)
    (now : Nat) (newTripId : Nat) (userId : Nat)
    (userBloodGroup : Option BloodKey) (pickupCoords : Int × Int)
    (preferredBloodType : Option BloodKey)
    (destinationHospitalId : Option Nat) : MedState × Trip :=
  let trip0 : Trip :=
    { id := newTripId, userId := userId, status := .SEARCHING,
      pickup := pickupCoords,
      destinationHospitalId := destinationHospitalId,
      timeline :=
        [{ status := .SEARCHING, timestamp := now,
           location := some pickupCoords,
           updatedBy := some (userActor userId) }] }
  let s1 : MedState := { s with trips := s.trips ++ [trip0] }
  match findNearbyAmbulances ambView s.ambulances 10 with
  | [] => (s1, trip0)
  | nearest :: _ =>
    let trip1 : Trip :=
      { trip0 with
        status := .ACCEPTED,
        ambulanceId := some nearest.ambulanceData.id,
        acceptedAt := some now,
        timeline := trip0.timeline ++
          [{ status := .ACCEPTED, timestamp := now,
             location := some pickupCoords,
             updatedBy := some (ambulanceActor nearest.ambulanceId) }] }
    let s2 := updateTrip s1 trip1
    let bloodTypeToSearch := preferredBloodType.orElse (fun _ => userBloodGroup)
    match findNearbyHospitals hospView s.hospitals 10
        { bloodType := bloodTypeToSearch, requireBeds := true } with
    | [] => (s2, trip1)
    | nh :: _ =>
      let trip2 : Trip :=
        { trip1 with
          destinationHospitalId := some nh.hospitalData.id,
          dropoff := some nh.hospitalData.location,
          timeline := trip1.timeline ++
            [{ status := .ACCEPTED, timestamp := now,
               location := some pickupCoords,
               updatedBy := some ("system") }] }
      (updateTrip s2 trip2, trip2)

/-- `arrivedAtPickup` (trip.controller.ts lines 260-329): the assigned
ambulance marks arrival; requires status ACCEPTED. -/
def arrivedAtPickupController (s : MedState) (now : Nat)
    (ambulanceAuthId tripId : Nat) : Except ApiError (MedState × Trip) :=
  match findTrip s tripId with
  | none => .error ⟨404, "Trip not found"⟩
  | some trip =>
    if trip.ambulanceId ≠ some ambulanceAuthId then
      .error ⟨403, "Forbidden - You are not assigned to this trip"⟩
    else if trip.status ≠ .ACCEPTED then
      .error ⟨400, "Cannot mark arrival. Expected status: ACCEPTED"⟩
    else
      let trip' : Trip :=
        { trip with
          status := .ARRIVED_PICKUP,
          arrivedAtPickup := some now,
          timeline := trip.timeline ++
            [{ status := .ARRIVED_PICKUP, timestamp := now,
               location := some trip.pickup,
               updatedBy := some (ambulanceActor ambulanceAuthId) }] }
      .ok (updateTrip s trip', trip')

/-- `enRouteToHospital` (trip.controller.ts lines 336-404): requires
status ARRIVED_PICKUP; the timeline entry carries the pickup
coordinates, as the source does. -/
def enRouteToHospitalController (s : MedState) (now : Nat)
    (ambulanceAuthId tripId : Nat) : Except ApiError (MedState × Trip) :=
  match findTrip s tripId with
  | none => .error ⟨404, "Trip not found"⟩
  | some trip =>
    if trip.ambulanceId ≠ some ambulanceAuthId then
      .error ⟨403, "Forbidden - You are not assigned to this trip"⟩
    else if trip.status ≠ .ARRIVED_PICKUP then
      .error ⟨400, "Cannot mark en route. Expected status: ARRIVED_PICKUP"⟩
    else
      let trip' : Trip :=
        { trip with
          status := .EN_ROUTE_HOSPITAL,
          timeline := trip.timeline ++
            [{ status := .EN_ROUTE_HOSPITAL, timestamp := now,
               location := some trip.pickup,
               updatedBy := some (ambulanceActor ambulanceAuthId) }] }
      .ok (updateTrip s trip', trip')

/-- `arrivedAtHospital` (trip.controller.ts lines 411-481): requires
status EN_ROUTE_HOSPITAL; entry location is the dropoff or [0,0]. -/
def arrivedAtHospitalController (s : MedState) (now : Nat)
    (ambulanceAuthId tripId : Nat) : Except ApiError (MedState × Trip) :=
  match findTrip s tripId with
  | none => .error ⟨404, "Trip not found"⟩
  | some trip =>
    if trip.ambulanceId ≠ some ambulanceAuthId then
      .error ⟨403, "Forbidden - You are not assigned to this trip"⟩
    else if trip.status ≠ .EN_ROUTE_HOSPITAL then
      .error ⟨400,
        "Cannot mark arrival at hospital. Expected status: EN_ROUTE_HOSPITAL"⟩
    else
      let trip' : Trip :=
        { trip with
          status := .ARRIVED_HOSPITAL,
          arrivedAtHospital := some now,
          timeline := trip.timeline ++
            [{ status := .ARRIVED_HOSPITAL, timestamp := now,
               location := some (trip.dropoff.getD (0, 0)),
               updatedBy := some (ambulanceActor ambulanceAuthId) }] }
      .ok (updateTrip s trip', trip')

/-- The authenticated caller of `completeTrip`: the assigned ambulance
or the destination hospital. -/
inductive CompleteActor where
  | ambulance (id : Nat)
  | hospital (id : Nat)
  deriving DecidableEq

/-- `completeTrip` (trip.controller.ts lines 488-580): requires status
ARRIVED_HOSPITAL; marks COMPLETED, saves, then sets the assigned
ambulance (if any) back to "ready" in MongoDB.  The handler performs no
Redis GEOADD: `ambulanceGeo` is left untouched. -/
def completeTripController (s : MedState) (now : Nat) (tripId : Nat)
    (actor : CompleteActor) : Except ApiError (MedState × Trip) :=
  match findTrip s tripId with
  | none => .error ⟨404, "Trip not found"⟩
  | some trip =>
    let authError : Option ApiError :=
      match actor with
      | .ambulance aid =>
        if trip.ambulanceId ≠ some aid then
          some ⟨403, "Forbidden - You are not assigned to this trip"⟩
        else none
      | .hospital hid =>
        if trip.destinationHospitalId ≠ some hid then
          some ⟨403, "Forbidden - This trip is not assigned to your hospital"⟩
        else none
    match authError with
    | some e => .error e
    | none =>
      if trip.status ≠ .ARRIVED_HOSPITAL then
        .error ⟨400, "Cannot complete trip. Expected status: ARRIVED_HOSPITAL"⟩
      else
        let updatedBy : String :=
          match actor with
          | .ambulance aid => ambulanceActor aid
          | .hospital hid => hospitalActor hid
        let trip' : Trip :=
          { trip with
            status := .COMPLETED,
            completedAt := some now,
            timeline := trip.timeline ++
              [{ status := .COMPLETED, timestamp := now,
                 location := some (trip.dropoff.getD (0, 0)),
                 updatedBy := some updatedBy }] }
        let s1 := updateTrip s trip'
        let s2 :=
          match trip.ambulanceId with
          | some aid => setAmbulanceStatus s1 aid .ready
          | none => s1
        .ok (s2, trip')

/-- The authenticated caller of the cancel handler. -/
inductive CancelActor where
  | user (id : Nat)
  | ambulance (id : Nat)
  | admin (id : Nat)
  deriving DecidableEq

/-- `cancelTrip` (trip.controller.ts lines 587-676): refuses COMPLETED
and CANCELLED trips, marks CANCELLED, saves, then sets the assigned
ambulance (if any) back to "ready" in MongoDB, again with no Redis
GEOADD. -/
def cancelTripController (s : MedState) (now : Nat) (tripId : Nat)
    (actor : CancelActor) : Except ApiError (MedState × Trip) :=
  match findTrip s tripId with
  | none => .error ⟨404, "Trip not found"⟩
  | some trip =>
    let authError : Option ApiError :=
      match actor with
      | .user uid =>
        if trip.userId ≠ uid then
          some ⟨403, "Forbidden - This is not your trip"⟩
        else none
      | .ambulance aid =>
        if trip.ambulanceId ≠ some aid then
          some ⟨403, "Forbidden - You are not assigned to this trip"⟩
        else none
      | .admin _ => none
    match authError with
    | some e => .error e
    | none =>
      if trip.status = .COMPLETED ∨ trip.status = .CANCELLED then
        .error ⟨400, "Cannot cancel trip"⟩
      else
        let updatedBy : String :=
          match actor with
          | .user uid => userActor uid
          | .ambulance aid => ambulanceActor aid
          | .admin aid => adminActor aid
        let trip' : Trip :=
          { trip with
            status := .CANCELLED,
            timeline := trip.timeline ++
              [{ status := .CANCELLED, timestamp := now,
                 location := some trip.pickup,
                 updatedBy := some updatedBy }] }
        let s1 := updateTrip s trip'
        let s2 :=
          match trip.ambulanceId with
          | some aid => setAmbulanceStatus s1 aid .ready
          | none => s1
        .ok (s2, trip')

/-- `updateTripLocation` (trip.controller.ts lines 683-757): the
assigned ambulance pushes an in-trip location sample onto the timeline;
the entry keeps the current status; refused for COMPLETED, CANCELLED
and SEARCHING trips. -/
def updateTripLocationController (s : MedState) (now : Nat)
    (ambulanceAuthId tripId : Nat) (location : Int × Int) :
    Except ApiError (MedState × Trip) :=
  match findTrip s tripId with
  | none => .error ⟨404, "Trip not found"⟩
  | some trip =>
    if trip.ambulanceId ≠ some ambulanceAuthId then
      .error ⟨403, "Forbidden - You are not assigned to this trip"⟩
    else if trip.status = .COMPLETED ∨ trip.status = .CANCELLED ∨
        trip.status = .SEARCHING then
      .error ⟨400, "Cannot update location"⟩
    else
      let trip' : Trip :=
        { trip with
          timeline := trip.timeline ++
            [{ status := trip.status, timestamp := now,
               location := some location,
               updatedBy := some (ambulanceActor ambulanceAuthId) }] }
      .ok (updateTrip s trip', trip')

/-! ## Claim C10 -/

/-- Claim C10: for every user who already has a trip in a non-terminal
status, `createTripRequest` fails with the 409 conflict error and
persists no new trip, so at most one active trip per user can be
created through this path. -/
theorem createTripRequest_active_trip_conflict
    (ambView hospView : GeoView) (s : MedState) (now newTripId : Nat)
    (input : CreateTripInput) (t : Trip)
    (hmem : t ∈ s.trips) (huser : t.userId = input.userId)
    (hactive : t.status ∈ activeStatuses)
    (hexists : input.userId ∈ s.users) :
    createTripRequest ambView hospView s now newTripId input =
      .error ⟨409, activeTripMessage⟩ ∧
    runState s (createTripRequest ambView hospView s now newTripId input) =
      s := by
  have hany : s.trips.any (fun u =>
      u.userId == input.userId && decide (u.status ∈ activeStatuses)) =
      true := by
    rw [List.any_eq_true]
    exact ⟨t, hmem, by simp [huser, hactive]⟩
  have hres : createTripRequest ambView hospView s now newTripId input =
      .error ⟨409, activeTripMessage⟩ := by
    simp [createTripRequest, hexists, hany]
  exact ⟨hres, by simp [runState, hres]⟩

/-- A concrete durable state whose user 7 has a SEARCHING trip. -/
def stateC10W : MedState :=
  { trips := [{ id := 2, userId := 7, status := .SEARCHING,
                pickup := (0, 0),
                timeline := [{ status := .SEARCHING, timestamp := 0 }] }],
    users := [7] }

/-- Witness for C10: user 7's second request is refused with 409 and
the state is unchanged. -/
theorem createTripRequest_active_trip_conflict_witness :
    createTripRequest [] [] stateC10W 3 9
      { userId := 7, pickupCoordinates := (0, 0) } =
      .error ⟨409, activeTripMessage⟩ ∧
    runState stateC10W (createTripRequest [] [] stateC10W 3 9
      { userId := 7, pickupCoordinates := (0, 0) }) = stateC10W := by
  exact createTripRequest_active_trip_conflict [] [] stateC10W 3 9
    { userId := 7, pickupCoordinates := (0, 0) }
    { id := 2, userId := 7, status := .SEARCHING, pickup := (0, 0),
      timeline := [{ status := .SEARCHING, timestamp := 0 }] }
    (by decide) rfl (by decide) (by decide)

/-- `updateTripStatus` never touches the ambulance collection. -/
lemma updateTripStatus_ok_ambulances (s : MedState) (now : Nat)
    (input : UpdateTripStatusInput) (s' : MedState) (t : Trip)
    (h : updateTripStatus s now input = .ok (s', t)) :
    s'.ambulances = s.ambulances := by
  unfold updateTripStatus at h
  cases hfind : findTrip s input.tripId with
  | none => rw [hfind] at h; cases h
  | some trip =>
    rw [hfind] at h
    simp only [] at h
    cases hval : validateStatusTransition trip.status input.status with
    | error e => rw [hval] at h; cases h
    | ok u =>
      rw [hval] at h
      simp only [] at h
      by_cases hc : input.status = .ACCEPTED ∧ input.ambulanceId = none
      · rw [if_pos hc] at h; cases h
      · rw [if_neg hc] at h
        simp only [Except.ok.injEq, Prod.mk.injEq] at h
        rw [← h.1]
        rfl

/-- After `setAmbulanceStatus`, every record carrying the updated id
carries the new status. -/
lemma setAmbulanceStatus_mem_status (s : MedState) (aid : Nat)
    (st : AmbulanceStatus) (a : Ambulance)
    (hmem : a ∈ (setAmbulanceStatus s aid st).ambulances)
    (hid : a.id = aid) : a.status = st := by
  simp only [setAmbulanceStatus] at hmem
  rcases List.mem_map.mp hmem with ⟨b, _, rfl⟩
  by_cases hb : b.id = aid
  · simp [hb]
  · simp only [if_neg hb] at hid ⊢
    exact absurd hid hb

/-! ## Claim C6 (amended statement) -/

/-- Claim C6, amended: a successful transition to ACCEPTED through
`updateTripStatus` requires an ambulance id (it fails with
ApiError(400) when none is supplied), and both service-layer accept
paths — the manual `assignAmbulanceToTrip` and the auto-assign branch
of `createTripRequest` — set the assigned ambulance's durable status to
on-trip.  (The HTTP `createTrip` handler's auto-assignment does not;
see the counterexample.) -/
theorem accepted_requires_ambulance_and_sets_on_trip :
    (∀ (s : MedState) (now : Nat) (input : UpdateTripStatusInput)
        (trip : Trip),
      findTrip s input.tripId = some trip →
      trip.status = .SEARCHING →
      input.status = .ACCEPTED →
      input.ambulanceId = none →
      updateTripStatus s now input =
        .error ⟨400, "Ambulance ID required for ACCEPTED status"⟩) ∧
    (∀ (s : MedState) (now tripId ambulanceId : Nat) (s' : MedState)
        (t : Trip),
      assignAmbulanceToTrip s now tripId ambulanceId = .ok (s', t) →
      ∀ a ∈ s'.ambulances, a.id = ambulanceId → a.status = .onTrip) ∧
    (∀ (ambView hospView : GeoView) (s : MedState) (now newTripId : Nat)
        (input : CreateTripInput) (s' : MedState) (t : Trip) (aid : Nat),
      createTripRequest ambView hospView s now newTripId input =
        .ok (s', t) →
      t.ambulanceId = some aid →
      ∀ a ∈ s'.ambulances, a.id = aid → a.status = .onTrip) := by
  refine ⟨?_, ?_, ?_⟩
  · intro s now input trip hfind hsearching haccepted hnone
    have hval : validateStatusTransition trip.status .ACCEPTED = .ok () := by
      simp [validateStatusTransition, hsearching, validTransitions]
    simp [updateTripStatus, hfind, haccepted, hval, hnone]
  · intro s now tripId ambulanceId s' t h a hmem hid
    unfold assignAmbulanceToTrip at h
    cases hfind : findTrip s tripId with
    | none => rw [hfind] at h; cases h
    | some trip =>
      rw [hfind] at h
      simp only [] at h
      by_cases hst : trip.status ≠ .SEARCHING
      · rw [if_pos hst] at h; cases h
      · rw [if_neg hst] at h
        cases hamb : findAmbulance s ambulanceId with
        | none => rw [hamb] at h; cases h
        | some ambulance =>
          rw [hamb] at h
          simp only [] at h
          by_cases hready : ambulance.status ≠ .ready
          · rw [if_pos hready] at h; cases h
          · rw [if_neg hready] at h
            have hambs := updateTripStatus_ok_ambulances _ now _ s' t h
            rw [hambs] at hmem
            exact setAmbulanceStatus_mem_status s ambulanceId .onTrip a
              hmem hid
  · intro ambView hospView s now newTripId input s' t aid h hassigned a
      hmem hid
    unfold createTripRequest at h
    by_cases huser : input.userId ∉ s.users
    · rw [if_pos huser] at h; cases h
    · rw [if_neg huser] at h
      by_cases hany : s.trips.any (fun u =>
          u.userId == input.userId &&
            decide (u.status ∈ activeStatuses)) = true
      · rw [if_pos hany] at h; cases h
      · rw [if_neg hany] at h
        cases hhosp : resolveTripHospital hospView s input with
        | error e => rw [hhosp] at h; cases h
        | ok hospital =>
          rw [hhosp] at h
          simp only [] at h
          cases hnear : findNearbyAmbulances ambView s.ambulances 5 with
          | nil =>
            rw [hnear] at h
            simp only [Except.ok.injEq, Prod.mk.injEq] at h
            rw [← h.2] at hassigned
            simp at hassigned
          | cons nearest rest =>
            rw [hnear] at h
            simp only [Except.ok.injEq, Prod.mk.injEq] at h
            have hid' : aid = nearest.ambulanceData.id := by
              rw [← h.2] at hassigned
              simpa using hassigned.symm
            have hambs : s'.ambulances =
                (setAmbulanceStatus s nearest.ambulanceData.id
                  .onTrip).ambulances := by
              rw [← h.1]
            rw [hambs] at hmem
            rw [hid'] at hid
            exact setAmbulanceStatus_mem_status s nearest.ambulanceData.id
              .onTrip a hmem hid

/-- A ready, located durable ambulance used by the C6 scenarios. -/
def ambulanceC6W : Ambulance :=
  { id := 1, status := .ready, location := some (0, 0) }

/-- A durable state holding only user 7 and `ambulanceC6W`. -/
def stateC6W : MedState :=
  { users := [7], ambulances := [ambulanceC6W], ambulanceGeo := [1] }

/-- Witness for C6 (amended): the manual accept on a SEARCHING trip
leaves ambulance 1 on-trip, and an ACCEPTED request without an
ambulance id is refused. -/
theorem accepted_requires_ambulance_and_sets_on_trip_witness :
    updateTripStatus
      { stateC10W with ambulances := [ambulanceC6W] } 4
      { tripId := 2, status := .ACCEPTED } =
      .error ⟨400, "Ambulance ID required for ACCEPTED status"⟩ ∧
    ambulanceC6W.id = 1 := by
  refine ⟨?_, rfl⟩
  exact accepted_requires_ambulance_and_sets_on_trip.1
    { stateC10W with ambulances := [ambulanceC6W] } 4
    { tripId := 2, status := .ACCEPTED }
    { id := 2, userId := 7, status := .SEARCHING, pickup := (0, 0),
      timeline := [{ status := .SEARCHING, timestamp := 0 }] }
    (by decide) rfl rfl rfl

/-- Counterexample for C6 as stated: the HTTP `createTrip` handler
auto-assigns ambulance 1 (the trip it returns is ACCEPTED with that
ambulance attached) yet the ambulance's durable status is still
"ready", not on-trip. -/
theorem createTripController_leaves_ambulance_ready_cex :
    (createTripController [(1, 3000)] [] stateC6W 10 100 7 none (0, 0)
      none none).2.status = .ACCEPTED ∧
    (createTripController [(1, 3000)] [] stateC6W 10 100 7 none (0, 0)
      none none).2.ambulanceId = some 1 ∧
    (createTripController [(1, 3000)] [] stateC6W 10 100 7 none (0, 0)
      none none).1.ambulances = [ambulanceC6W] := by
  decide

/-! ## Claim C2: the timeline invariant -/

/-- The status of the last timeline entry. -/
def lastTimelineStatus (t : Trip) : Option TripStatus :=
  t.timeline.getLast?.map (fun e => e.status)

/-- The timeline invariant: the timeline is non-empty and its last
entry's status equals the trip's current status. -/
def tripInv (t : Trip) : Prop :=
  t.timeline ≠ [] ∧ lastTimelineStatus t = some t.status

instance (t : Trip) : Decidable (tripInv t) := by
  unfold tripInv; infer_instance

/-- A trip whose timeline extends another's by one entry carrying the
trip's current status satisfies the invariant. -/
lemma tripInv_append (base : List TimelineEntry) (t : Trip)
    (e : TimelineEntry) (ht : t.timeline = base ++ [e])
    (hs : e.status = t.status) : tripInv t := by
  constructor
  · simp [ht]
  · simp [lastTimelineStatus, ht, List.getLast?_concat, hs]

/-- Shape of a successful `updateTripStatus`: the returned trip carries
the requested status and its timeline is the fetched trip's timeline
with exactly one entry (of that status) appended. -/
lemma updateTripStatus_ok_shape (s : MedState) (now : Nat)
    (input : UpdateTripStatusInput) (s' : MedState) (t trip : Trip)
    (hfind : findTrip s input.tripId = some trip)
    (h : updateTripStatus s now input = .ok (s', t)) :
    t.status = input.status ∧
    ∃ e : TimelineEntry, e.status = input.status ∧
      t.timeline = trip.timeline ++ [e] := by
  unfold updateTripStatus at h
  rw [hfind] at h
  simp only [] at h
  cases hval : validateStatusTransition trip.status input.status with
  | error e => rw [hval] at h; cases h
  | ok u =>
    rw [hval] at h
    simp only [] at h
    by_cases hc : input.status = .ACCEPTED ∧ input.ambulanceId = none
    · rw [if_pos hc] at h; cases h
    · rw [if_neg hc] at h
      simp only [Except.ok.injEq, Prod.mk.injEq] at h
      rw [← h.2]
      exact ⟨rfl, ⟨_, rfl, rfl⟩⟩

/-- Claim C2: after creation and after every successful operation that
touches the timeline — the lifecycle transitions (`updateTripStatus`,
`assignAmbulanceToTrip`, and the status HTTP handlers), the hospital
attachment inside the `createTrip` handler, and in-trip location
updates — the trip returned (and saved) has a non-empty timeline whose
last entry's status equals the trip's current status, and the previous
timeline was only appended to (one new entry; nothing reordered or
deleted). -/
theorem trip_timeline_invariant :
    (∀ (ambView hospView : GeoView) (s : MedState)
        (now newTripId userId : Nat) (ubg : Option BloodKey)
        (pc : Int × Int) (pbt : Option BloodKey) (dhid : Option Nat),
      tripInv (createTripController ambView hospView s now newTripId
        userId ubg pc pbt dhid).2) ∧
    (∀ (ambView hospView : GeoView) (s : MedState) (now newTripId : Nat)
        (input : CreateTripInput) (s' : MedState) (t : Trip),
      createTripRequest ambView hospView s now newTripId input =
        .ok (s', t) → tripInv t) ∧
    (∀ (s : MedState) (now : Nat) (input : UpdateTripStatusInput)
        (s' : MedState) (t trip : Trip),
      findTrip s input.tripId = some trip →
      updateTripStatus s now input = .ok (s', t) →
      tripInv t ∧ ∃ e, t.timeline = trip.timeline ++ [e]) ∧
    (∀ (s : MedState) (now tripId ambulanceId : Nat) (s' : MedState)
        (t trip : Trip),
      findTrip s tripId = some trip →
      assignAmbulanceToTrip s now tripId ambulanceId = .ok (s', t) →
      tripInv t ∧ ∃ e, t.timeline = trip.timeline ++ [e]) ∧
    (∀ (s : MedState) (now aid tid : Nat) (s' : MedState) (t trip : Trip),
      findTrip s tid = some trip →
      arrivedAtPickupController s now aid tid = .ok (s', t) →
      tripInv t ∧ ∃ e, t.timeline = trip.timeline ++ [e]) ∧
    (∀ (s : MedState) (now aid tid : Nat) (s' : MedState) (t trip : Trip),
      findTrip s tid = some trip →
      enRouteToHospitalController s now aid tid = .ok (s', t) →
      tripInv t ∧ ∃ e, t.timeline = trip.timeline ++ [e]) ∧
    (∀ (s : MedState) (now aid tid : Nat) (s' : MedState) (t trip : Trip),
      findTrip s tid = some trip →
      arrivedAtHospitalController s now aid tid = .ok (s', t) →
      tripInv t ∧ ∃ e, t.timeline = trip.timeline ++ [e]) ∧
    (∀ (s : MedState) (now tid : Nat) (actor : CompleteActor)
        (s' : MedState) (t trip : Trip),
      findTrip s tid = some trip →
      completeTripController s now tid actor = .ok (s', t) →
      tripInv t ∧ ∃ e, t.timeline = trip.timeline ++ [e]) ∧
    (∀ (s : MedState) (now tid : Nat) (actor : CancelActor)
        (s' : MedState) (t trip : Trip),
      findTrip s tid = some trip →
      cancelTripController s now tid actor = .ok (s', t) →
      tripInv t ∧ ∃ e, t.timeline = trip.timeline ++ [e]) ∧
    (∀ (s : MedState) (now aid tid : Nat) (loc : Int × Int)
        (s' : MedState) (t trip : Trip),
      findTrip s tid = some trip →
      updateTripLocationController s now aid tid loc = .ok (s', t) →
      tripInv t ∧ ∃ e, t.timeline = trip.timeline ++ [e]) := by
  refine ⟨?_, ?_, ?_, ?_, ?_, ?_, ?_, ?_, ?_, ?_⟩
  · intro ambView hospView s now newTripId userId ubg pc pbt dhid
    unfold createTripController
    cases hnear : findNearbyAmbulances ambView s.ambulances 10 with
    | nil =>
      simp only [hnear]
      constructor
      · simp
      · simp [lastTimelineStatus]
    | cons nearest rest =>
      simp only [hnear]
      cases hhosp : findNearbyHospitals hospView s.hospitals 10
          { bloodType := pbt.orElse (fun _ => ubg), requireBeds := true } with
      | nil =>
        simp only [hhosp]
        exact tripInv_append _ _ _ rfl rfl
      | cons nh rest2 =>
        simp only [hhosp]
        exact tripInv_append _ _ _ rfl rfl
  · intro ambView hospView s now newTripId input s' t h
    unfold createTripRequest at h
    by_cases huser : input.userId ∉ s.users
    · rw [if_pos huser] at h; cases h
    · rw [if_neg huser] at h
      by_cases hany : s.trips.any (fun u =>
          u.userId == input.userId &&
            decide (u.status ∈ activeStatuses)) = true
      · rw [if_pos hany] at h; cases h
      · rw [if_neg hany] at h
        cases hhosp : resolveTripHospital hospView s input with
        | error e => rw [hhosp] at h; cases h
        | ok hospital =>
          rw [hhosp] at h
          simp only [] at h
          cases hnear : findNearbyAmbulances ambView s.ambulances 5 with
          | nil =>
            rw [hnear] at h
            simp only [Except.ok.injEq, Prod.mk.injEq] at h
            rw [← h.2]
            constructor
            · simp
            · simp [lastTimelineStatus]
          | cons nearest rest =>
            rw [hnear] at h
            simp only [Except.ok.injEq, Prod.mk.injEq] at h
            rw [← h.2]
            constructor
            · simp
            · simp [lastTimelineStatus]
  · intro s now input s' t trip hfind h
    obtain ⟨hst, e, hes, hti⟩ := updateTripStatus_ok_shape s now input s' t
      trip hfind h
    exact ⟨tripInv_append trip.timeline t e hti (by rw [hes, hst]),
      ⟨e, hti⟩⟩
  · intro s now tripId ambulanceId s' t trip hfind h
    unfold assignAmbulanceToTrip at h
    rw [hfind] at h
    simp only [] at h
    by_cases hst : trip.status ≠ .SEARCHING
    · rw [if_pos hst] at h; cases h
    · rw [if_neg hst] at h
      cases hamb : findAmbulance s ambulanceId with
      | none => rw [hamb] at h; cases h
      | some ambulance =>
        rw [hamb] at h
        simp only [] at h
        by_cases hready : ambulance.status ≠ .ready
        · rw [if_pos hready] at h; cases h
        · rw [if_neg hready] at h
          have hfind1 : findTrip (setAmbulanceStatus s ambulanceId
              .onTrip) tripId = some trip := hfind
          obtain ⟨hst', e, hes, hti⟩ := updateTripStatus_ok_shape _ now _
            s' t trip hfind1 h
          exact ⟨tripInv_append trip.timeline t e hti (by rw [hes, hst']),
            ⟨e, hti⟩⟩
  · intro s now aid tid s' t trip hfind h
    unfold arrivedAtPickupController at h
    rw [hfind] at h
    simp only [] at h
    by_cases h1 : trip.ambulanceId ≠ some aid
    · rw [if_pos h1] at h; cases h
    · rw [if_neg h1] at h
      by_cases h2 : trip.status ≠ .ACCEPTED
      · rw [if_pos h2] at h; cases h
      · rw [if_neg h2] at h
        simp only [Except.ok.injEq, Prod.mk.injEq] at h
        rw [← h.2]
        exact ⟨tripInv_append trip.timeline _ _ rfl rfl, ⟨_, rfl⟩⟩
  · intro s now aid tid s' t trip hfind h
    unfold enRouteToHospitalController at h
    rw [hfind] at h
    simp only [] at h
    by_cases h1 : trip.ambulanceId ≠ some aid
    · rw [if_pos h1] at h; cases h
    · rw [if_neg h1] at h
      by_cases h2 : trip.status ≠ .ARRIVED_PICKUP
      · rw [if_pos h2] at h; cases h
      · rw [if_neg h2] at h
        simp only [Except.ok.injEq, Prod.mk.injEq] at h
        rw [← h.2]
        exact ⟨tripInv_append trip.timeline _ _ rfl rfl, ⟨_, rfl⟩⟩
  · intro s now aid tid s' t trip hfind h
    unfold arrivedAtHospitalController at h
    rw [hfind] at h
    simp only [] at h
    by_cases h1 : trip.ambulanceId ≠ some aid
    · rw [if_pos h1] at h; cases h
    · rw [if_neg h1] at h
      by_cases h2 : trip.status ≠ .EN_ROUTE_HOSPITAL
      · rw [if_pos h2] at h; cases h
      · rw [if_neg h2] at h
        simp only [Except.ok.injEq, Prod.mk.injEq] at h
        rw [← h.2]
        exact ⟨tripInv_append trip.timeline _ _ rfl rfl, ⟨_, rfl⟩⟩
  · intro s now tid actor s' t trip hfind h
    unfold completeTripController at h
    rw [hfind] at h
    simp only [] at h
    cases hauth : (match actor with
      | CompleteActor.ambulance aid =>
        if trip.ambulanceId ≠ some aid then
          some (⟨403, "Forbidden - You are not assigned to this trip"⟩ :
            ApiError)
        else none
      | CompleteActor.hospital hid =>
        if trip.destinationHospitalId ≠ some hid then
          some ⟨403, "Forbidden - This trip is not assigned to your hospital"⟩
        else none) with
    | some e => rw [hauth] at h; cases h
    | none =>
      rw [hauth] at h
      simp only [] at h
      by_cases h2 : trip.status ≠ .ARRIVED_HOSPITAL
      · rw [if_pos h2] at h; cases h
      · rw [if_neg h2] at h
        simp only [Except.ok.injEq, Prod.mk.injEq] at h
        rw [← h.2]
        exact ⟨tripInv_append trip.timeline _ _ rfl rfl, ⟨_, rfl⟩⟩
  · intro s now tid actor s' t trip hfind h
    unfold cancelTripController at h
    rw [hfind] at h
    simp only [] at h
    cases hauth : (match actor with
      | CancelActor.user uid =>
        if trip.userId ≠ uid then
          some (⟨403, "Forbidden - This is not your trip"⟩ : ApiError)
        else none
      | CancelActor.ambulance aid =>
        if trip.ambulanceId ≠ some aid then
          some ⟨403, "Forbidden - You are not assigned to this trip"⟩
        else none
      | CancelActor.admin _ => none) with
    | some e => rw [hauth] at h; cases h
    | none =>
      rw [hauth] at h
      simp only [] at h
      by_cases h2 : trip.status = .COMPLETED ∨ trip.status = .CANCELLED
      · rw [if_pos h2] at h; cases h
      · rw [if_neg h2] at h
        simp only [Except.ok.injEq, Prod.mk.injEq] at h
        rw [← h.2]
        exact ⟨tripInv_append trip.timeline _ _ rfl rfl, ⟨_, rfl⟩⟩
  · intro s now aid tid loc s' t trip hfind h
    unfold updateTripLocationController at h
    rw [hfind] at h
    simp only [] at h
    by_cases h1 : trip.ambulanceId ≠ some aid
    · rw [if_pos h1] at h; cases h
    · rw [if_neg h1] at h
      by_cases h2 : trip.status = .COMPLETED ∨ trip.status = .CANCELLED ∨
          trip.status = .SEARCHING
      · rw [if_pos h2] at h; cases h
      · rw [if_neg h2] at h
        simp only [Except.ok.injEq, Prod.mk.injEq] at h
        rw [← h.2]
        exact ⟨tripInv_append trip.timeline _ _ rfl rfl, ⟨_, rfl⟩⟩

/-- The SEARCHING trip of `stateC10W`, as fetched before the C2
witness cancellation. -/
def tripC2pre : Trip :=
  { id := 2, userId := 7, status := .SEARCHING, pickup := (0, 0),
    timeline := [{ status := .SEARCHING, timestamp := 0 }] }

/-- The trip produced by the C2 witness cancellation. -/
def tripC2post : Trip :=
  { id := 2, userId := 7, status := .CANCELLED, pickup := (0, 0),
    timeline := [{ status := .SEARCHING, timestamp := 0 },
                 { status := .CANCELLED, timestamp := 4 }] }

/-- Witness for C2: cancelling the SEARCHING trip of `stateC10W`
through `updateTripStatus` yields a trip satisfying the invariant whose
timeline extends the old one by one entry. -/
theorem trip_timeline_invariant_witness :
    tripInv tripC2post ∧
    ∃ e, tripC2post.timeline = tripC2pre.timeline ++ [e] := by
  have h := trip_timeline_invariant.2.2.1 stateC10W 4
    { tripId := 2, status := .CANCELLED }
    { stateC10W with trips := [tripC2post] } tripC2post tripC2pre
    (by decide) (by rfl)
  exact ⟨h.1, h.2⟩

/-! ## Claim C4 (amended statement) -/

/-- Claim C4, amended: a successful transition to COMPLETED
(`completeTrip`) or CANCELLED (`cancelTrip`) with an assigned ambulance
sets that ambulance's durable status back to ready, but it performs no
GEOADD: the `ambulance_locations` geo index is left exactly as it was,
so the released ambulance is not re-inserted by these handlers (it
re-enters the index only through a later `syncAmbulancetoRedis`). -/
theorem trip_release_sets_ready_geo_unchanged :
    (∀ (s : MedState) (now tid : Nat) (actor : CompleteActor)
        (s' : MedState) (t trip : Trip),
      findTrip s tid = some trip →
      completeTripController s now tid actor = .ok (s', t) →
      s'.ambulanceGeo = s.ambulanceGeo ∧
      ∀ aid, trip.ambulanceId = some aid →
        ∀ a ∈ s'.ambulances, a.id = aid → a.status = .ready) ∧
    (∀ (s : MedState) (now tid : Nat) (actor : CancelActor)
        (s' : MedState) (t trip : Trip),
      findTrip s tid = some trip →
      cancelTripController s now tid actor = .ok (s', t) →
      s'.ambulanceGeo = s.ambulanceGeo ∧
      ∀ aid, trip.ambulanceId = some aid →
        ∀ a ∈ s'.ambulances, a.id = aid → a.status = .ready) := by
  constructor
  · intro s now tid actor s' t trip hfind h
    unfold completeTripController at h
    rw [hfind] at h
    simp only [] at h
    cases hauth : (match actor with
      | CompleteActor.ambulance aid =>
        if trip.ambulanceId ≠ some aid then
          some (⟨403, "Forbidden - You are not assigned to this trip"⟩ :
            ApiError)
        else none
      | CompleteActor.hospital hid =>
        if trip.destinationHospitalId ≠ some hid then
          some ⟨403, "Forbidden - This trip is not assigned to your hospital"⟩
        else none) with
    | some e => rw [hauth] at h; cases h
    | none =>
      rw [hauth] at h
      simp only [] at h
      by_cases h2 : trip.status ≠ .ARRIVED_HOSPITAL
      · rw [if_pos h2] at h; cases h
      · rw [if_neg h2] at h
        simp only [Except.ok.injEq, Prod.mk.injEq] at h
        cases hass : trip.ambulanceId with
        | none =>
          rw [hass] at h
          constructor
          · rw [← h.1]; rfl
          · intro aid haid
            simp at haid
        | some aid0 =>
          rw [hass] at h
          constructor
          · rw [← h.1]; rfl
          · intro aid haid
            injection haid with haid
            subst haid
            intro a hmem hid
            rw [← h.1] at hmem
            exact setAmbulanceStatus_mem_status _ aid0 .ready a hmem hid
  · intro s now tid actor s' t trip hfind h
    unfold cancelTripController at h
    rw [hfind] at h
    simp only [] at h
    cases hauth : (match actor with
      | CancelActor.user uid =>
        if trip.userId ≠ uid then
          some (⟨403, "Forbidden - This is not your trip"⟩ : ApiError)
        else none
      | CancelActor.ambulance aid =>
        if trip.ambulanceId ≠ some aid then
          some ⟨403, "Forbidden - You are not assigned to this trip"⟩
        else none
      | CancelActor.admin _ => none) with
    | some e => rw [hauth] at h; cases h
    | none =>
      rw [hauth] at h
      simp only [] at h
      by_cases h2 : trip.status = .COMPLETED ∨ trip.status = .CANCELLED
      · rw [if_pos h2] at h; cases h
      · rw [if_neg h2] at h
        simp only [Except.ok.injEq, Prod.mk.injEq] at h
        cases hass : trip.ambulanceId with
        | none =>
          rw [hass] at h
          constructor
          · rw [← h.1]; rfl
          · intro aid haid
            simp at haid
        | some aid0 =>
          rw [hass] at h
          constructor
          · rw [← h.1]; rfl
          · intro aid haid
            injection haid with haid
            subst haid
            intro a hmem hid
            rw [← h.1] at hmem
            exact setAmbulanceStatus_mem_status _ aid0 .ready a hmem hid

/-- A trip at the hospital with ambulance 9 assigned, for the C4
scenario.  Ambulance 9 is on-trip and (as the engine keeps it while
on-trip) absent from the geo index. -/
def tripC4 : Trip :=
  { id := 1, userId := 5, ambulanceId := some 9,
    destinationHospitalId := some 3, status := .ARRIVED_HOSPITAL,
    pickup := (0, 0),
    timeline := [{ status := .ARRIVED_HOSPITAL, timestamp := 1 }] }

/-- The C4 scenario state. -/
def stateC4 : MedState :=
  { trips := [tripC4], users := [5],
    ambulances := [{ id := 9, status := .onTrip, location := some (1, 1) }],
    ambulanceGeo := [] }

/-- The trip record after the C4 completion. -/
def tripC4post : Trip :=
  { id := 1, userId := 5, ambulanceId := some 9,
    destinationHospitalId := some 3, status := .COMPLETED,
    pickup := (0, 0),
    timeline := [{ status := .ARRIVED_HOSPITAL, timestamp := 1 },
                 { status := .COMPLETED, timestamp := 50,
                   location := some (0, 0),
                   updatedBy := some (ambulanceActor 9) }],
    completedAt := some 50 }

/-- The durable state after the C4 completion: ambulance 9 is ready
again but still missing from the geo index. -/
def stateC4post : MedState :=
  { trips := [tripC4post], users := [5],
    ambulances := [{ id := 9, status := .ready, location := some (1, 1) }],
    ambulanceGeo := [] }

/-- Counterexample for C4 as stated: completing the trip succeeds and
sets ambulance 9 back to ready, yet ambulance 9 is not re-inserted
into the `ambulance_locations` geo index (no GEOADD happens). -/
theorem completeTrip_no_geo_reinsert_cex :
    completeTripController stateC4 50 1 (.ambulance 9) =
      .ok (stateC4post, tripC4post) ∧
    9 ∉ stateC4post.ambulanceGeo ∧
    stateC4post.ambulances =
      [{ id := 9, status := .ready, location := some (1, 1) }] := by
  refine ⟨by rfl, by decide, by decide⟩

/-- Witness for C4 (amended): in the same scenario, the release sets
ambulance 9 ready while leaving the geo index exactly as before. -/
theorem trip_release_sets_ready_geo_unchanged_witness :
    stateC4post.ambulanceGeo = stateC4.ambulanceGeo ∧
    ({ id := 9, status := .ready, location := some (1, 1) } :
      Ambulance).status = .ready := by
  have h := trip_release_sets_ready_geo_unchanged.1 stateC4 50 1
    (.ambulance 9) stateC4post tripC4post tripC4 (by decide) (by rfl)
  exact ⟨h.1, h.2 9 (by decide)
    { id := 9, status := .ready, location := some (1, 1) }
    (by decide) (by decide)⟩

/-! ## Claim C5: the concurrent-accept race
(trip.dto.ts `updateTripStatus` / `assignAmbulanceToTrip`)

The accept path is a read-modify-write: `Trip.findById` reads the trip,
`validateStatusTransition` checks the fetched status, and `trip.save()`
writes unconditionally — there is no conditional update guarded by the
expected pre-state.  The race is modelled by two accept processes over
one shared trip-status cell, each taking a read step (fetch and
validate) and then a write step (save when the fetched status passed
validation). -/

/-- Outcome of one accept attempt. -/
inductive AcceptResult where
  | pending
  | success
  | invalidTransition
  deriving DecidableEq

/-- One accept process: its program counter, the trip status its
`findById` fetched, and its outcome. -/
structure AcceptProc where
  pc : Nat := 0
  fetched : Option TripStatus := none
  result : AcceptResult := .pending
  deriving DecidableEq

/-- The shared state of the race: the durable trip status and the two
accept processes. -/
structure RaceState where
  tripStatus : TripStatus
  p1 : AcceptProc := {}
  p2 : AcceptProc := {}
  deriving DecidableEq

/-- One step of an accept process.  Step 0 is the `findById` read;
step 1 validates the fetched status (SEARCHING allows ACCEPTED;
anything else throws InvalidTransition) and, when valid, performs the
unconditional `save()` writing ACCEPTED. -/
def acceptStep (tripStatus : TripStatus) (p : AcceptProc) :
    TripStatus × AcceptProc :=
  match p.pc with
  | 0 => (tripStatus, { p with pc := 1, fetched := some tripStatus })
  | 1 =>
    match p.fetched with
    | some .SEARCHING =>
      (.ACCEPTED, { p with pc := 2, result := .success })
    | _ => (tripStatus, { p with pc := 2, result := .invalidTransition })
  | _ => (tripStatus, p)

/-- Run the step of the chosen process (`true` picks process 1). -/
def raceStep (s : RaceState) (pickFirst : Bool) : RaceState :=
  if pickFirst then
    let (ts, p) := acceptStep s.tripStatus s.p1
    { s with tripStatus := ts, p1 := p }
  else
    let (ts, p) := acceptStep s.tripStatus s.p2
    { s with tripStatus := ts, p2 := p }

/-- Run a schedule: the list of process picks, in order. -/
def runSchedule (sched : List Bool) (s : RaceState) : RaceState :=
  sched.foldl raceStep s

/-- Two accept attempts racing on one SEARCHING trip. -/
def raceInit : RaceState := { tripStatus := .SEARCHING }

/-- Counterexample for C5 as stated: under the interleaving in which
both reads happen before both writes, the read-modify-write accept of
`updateTripStatus` lets BOTH attempts succeed — there is no atomic
conditional update tying the write to the expected pre-state, so the
claimed "exactly one success, one InvalidTransition" fails. -/
theorem concurrent_accept_both_succeed_cex :
    (runSchedule [true, false, true, false] raceInit).p1.result =
      .success ∧
    (runSchedule [true, false, true, false] raceInit).p2.result =
      .success := by
  decide

/-- Claim C5, amended: when the two accept attempts do not interleave
(one runs read and write before the other starts), exactly one succeeds
and the other fails with InvalidTransition — but this exclusion is only
sequential: the race of `concurrent_accept_both_succeed_cex` shows the
update is not an atomic conditional update. -/
theorem serial_accepts_exactly_one_success :
    ((runSchedule [true, true, false, false] raceInit).p1.result =
        .success ∧
      (runSchedule [true, true, false, false] raceInit).p2.result =
        .invalidTransition) ∧
    ((runSchedule [false, false, true, true] raceInit).p2.result =
        .success ∧
      (runSchedule [false, false, true, true] raceInit).p1.result =
        .invalidTransition) := by
  decide

/-! ## Claim C7: geo-index membership vs durable status
(ambulance.service.ts `syncAmbulancetoRedis`,
location.events.ts `location_update`) -/

/-- `syncAmbulancetoRedis` (ambulance.service.ts lines 21-54):
GEOADD when the durable status is "ready" and a location is set,
ZREM otherwise.  (The comment in the source states that only ready
ambulances should be in the search pool.) -/
def syncAmbulancetoRedis (s : MedState) (a : Ambulance) : MedState :=
  if a.status = .ready ∧ a.location.isSome then geoAdd s a.id
  else zRem s a.id

/-- Socket acknowledgement payload `{ success, message }`. -/
structure SocketAck where
  success : Bool
  message : String
  deriving DecidableEq

/-- Payload of the `location_update` socket event. -/
structure LocationUpdatePayload where
  tripId : Nat
  latitude : Int
  longitude : Int
  deriving DecidableEq

/-- Write-through of `redis.set("location:<role>:<tripId>", ..)`:
replace any entry under the same key. -/
def cacheSet (s : MedState) (e : CacheEntry) : MedState :=
  { s with
    locationCache := (s.locationCache.filter (fun c =>
      !(decide (c.role = e.role) && decide (c.tripId = e.tripId)))) ++ [e] }

/-- The `location_update` handler (location.events.ts lines 43-112):
validate the payload (JavaScript falsiness: a zero trip id or
coordinate is rejected as invalid), check the sender is the trip user
or its assigned ambulance, cache the location under
`location:<role>:<tripId>` — and, when the sender role is "ambulance",
GEOADD the sender into `ambulance_locations` without consulting the
ambulance durable status.  The `location_updated` broadcast to the trip
room is an external effect and is dropped. -/
def locationUpdateEvent (s : MedState) (now : Nat) (senderId : Nat)
    (senderRole : Role) (p : LocationUpdatePayload) :
    MedState × SocketAck :=
  if p.tripId = 0 ∨ p.latitude = 0 ∨ p.longitude = 0 then
    (s, { success := false, message := "Invalid payload" })
  else
    match findTrip s p.tripId with
    | none => (s, { success := false, message := "Trip not found" })
    | some trip =>
      if (senderRole = .user ∧ trip.userId = senderId) ∨
          (senderRole = .ambulance ∧ trip.ambulanceId = some senderId) then
        let s1 := cacheSet s
          { role := senderRole, tripId := p.tripId,
            longitude := p.longitude, latitude := p.latitude,
            timestamp := now }
        let s2 := if senderRole = .ambulance then geoAdd s1 senderId else s1
        (s2, { success := true, message := "Location updated" })
      else
        (s, { success := false,
              message := "Unauthorized: Only trip participants can send location" })

/-- The C7 scenario: ambulance 9 is on-trip (assigned to the en-route
trip 1) and therefore absent from the geo index. -/
def stateC7 : MedState :=
  { trips := [{ id := 1, userId := 5, ambulanceId := some 9,
                status := .EN_ROUTE_HOSPITAL, pickup := (0, 0),
                timeline := [{ status := .EN_ROUTE_HOSPITAL,
                               timestamp := 1 }] }],
    users := [5],
    ambulances := [{ id := 9, status := .onTrip, location := some (1, 1) }],
    ambulanceGeo := [] }

/-- Claim C7 is violated by the code (the spec invariant — GeoIndex
membership iff status is ready and a location is set — is the stated
policy of `syncAmbulancetoRedis`): a `location_update` from ambulance 9
while its durable status is on-trip succeeds and GEOADDs ambulance 9
into `ambulance_locations`, so a non-ready ambulance enters the index. -/
theorem location_update_inserts_on_trip_ambulance :
    (locationUpdateEvent stateC7 100 9 .ambulance
      { tripId := 1, latitude := 3, longitude := 4 }).2.success = true ∧
    9 ∈ (locationUpdateEvent stateC7 100 9 .ambulance
      { tripId := 1, latitude := 3, longitude := 4 }).1.ambulanceGeo ∧
    (locationUpdateEvent stateC7 100 9 .ambulance
      { tripId := 1, latitude := 3, longitude := 4 }).1.ambulances =
      [{ id := 9, status := .onTrip, location := some (1, 1) }] := by
  decide

/-! ## Claim C9: leave_trip idempotence
(the trip socket events file, `leave_trip` handler) -/

/-- The per-trip room state: the socket ids in the Socket.IO room
`trip:<tripId>` and the Redis set `trip_participants:<tripId>`. -/
structure TripRoomState where
  members : List Nat
  participants : List Nat
  deriving DecidableEq

/-- An event emitted to a set of recipient sockets. -/
structure SocketEmit where
  event : String
  recipients : List Nat
  deriving DecidableEq

/-- The `leave_trip` handler: reject a missing trip id; otherwise
`socket.leave`, SREM from the participants set, then emit
`participant_left` to the room (the sender, having just left, is not a
recipient) and acknowledge success.  The emission is unconditional —
the handler never checks whether the sender was in the room. -/
def leaveTripEvent (st : TripRoomState) (senderSid : Nat)
    (payloadTripId : Option Nat) :
    TripRoomState × List SocketEmit × SocketAck :=
  match payloadTripId with
  | none => (st, [], { success := false, message := "Trip ID is required" })
  | some _ =>
    let st' : TripRoomState :=
      { members := st.members.filter (fun m => m != senderSid),
        participants := st.participants.filter (fun m => m != senderSid) }
    (st', [{ event := "participant_left", recipients := st'.members }],
      { success := true, message := "Successfully left trip" })

/-- Counterexample for C9 as stated: with sockets 1 and 2 in the room,
socket 1 leaves twice; the second call emits a second
`participant_left` event to the room (socket 2 receives it again). -/
theorem leave_trip_duplicate_emit_cex :
    (leaveTripEvent
      (leaveTripEvent { members := [1, 2], participants := [1, 2] }
        1 (some 8)).1 1 (some 8)).2.1 =
      [{ event := "participant_left", recipients := [2] }] ∧
    (leaveTripEvent
      (leaveTripEvent { members := [1, 2], participants := [1, 2] }
        1 (some 8)).1 1 (some 8)).2.2.success = true := by
  decide

/-- Claim C9, amended: the second `leave_trip` in a row is idempotent
on state — it leaves the room membership and the participants set
unchanged — and succeeds without error, but it does emit another
`participant_left` event to the remaining room members (the handler
emits unconditionally). -/
theorem leave_trip_second_call_state_idempotent (st : TripRoomState)
    (senderSid tripId : Nat) :
    (leaveTripEvent (leaveTripEvent st senderSid (some tripId)).1
        senderSid (some tripId)).1 =
      (leaveTripEvent st senderSid (some tripId)).1 ∧
    (leaveTripEvent (leaveTripEvent st senderSid (some tripId)).1
        senderSid (some tripId)).2.2.success = true ∧
    (leaveTripEvent (leaveTripEvent st senderSid (some tripId)).1
        senderSid (some tripId)).2.1 =
      [{ event := "participant_left",
         recipients := (leaveTripEvent st senderSid (some tripId)).1.members }] := by
  have hfilter : ∀ (l : List Nat),
      (l.filter (fun m => m != senderSid)).filter (fun m => m != senderSid) =
        l.filter (fun m => m != senderSid) := by
    intro l
    rw [List.filter_filter]
    simp
  refine ⟨?_, rfl, ?_⟩
  · simp only [leaveTripEvent]
    rw [hfilter, hfilter]
  · simp only [leaveTripEvent]
    rw [hfilter]

end Medswift
